import Mathlib

/-
  Verification development for the AI Invoice Checker repository.

  The repository pairs a React dashboard (TypeScript, under src/) with a
  FastAPI backend and a shared extraction library (documented in
  backend/README.md and invoice_extractor/README.md).  The extraction
  pipeline itself (No-Guess Gate, Confidence Scorer, Invoice Assembler,
  Job Manager, Page Dispatcher) lives in the backend Python code, which is
  not present under src/; those components are modelled here from the
  specification.  The upload manager (upsertFile, startUpload, pollJob) and
  the dashboard pages (invoices-page, ai-review-page, invoice-detail-page)
  are present as TypeScript source and are embedded directly.
-/

/-- Per-field readability status reported by the vision-language model.
The closed seven-way variant from the spec data model (PageResult.RawField):
readable, unreadable, ambiguous, blurry, faded, cut_off, handwritten. -/
inductive FieldStatus where
  | readable
  | unreadable
  | ambiguous
  | blurry
  | faded
  | cut_off
  | handwritten
deriving DecidableEq, Repr

/-- A reported field value: the model returns a string or a number (or null,
which is represented by wrapping this type in Option). -/
inductive FieldValue where
  | str (s : String)
  | num (q : ℚ)
deriving DecidableEq, Repr

/-- One raw per-field report from the model: value, confidence in [0,1],
readability status, and an optional reason. -/
structure RawField where
  value : Option FieldValue
  confidence : ℚ
  status : FieldStatus
  reason : Option String
deriving DecidableEq, Repr

/-- Modelled from the spec: the No-Guess Gate of invoice_extractor/lib.py is
not under src/ (only its READMEs are).  Per field, in order: if status is not
readable, force the value to null; else if the field is mandatory and its
confidence is below 0.70, force the value to null; else keep the reported
value verbatim. -/
def gateField (mandatory : Bool) (f : RawField) : Option FieldValue :=
  if f.status = FieldStatus.readable then
    if mandatory && decide (f.confidence < 7/10) then none else f.value
  else none

/-- Modelled from the spec: whether the gate (rule 1 or rule 2) fired on this
field, i.e. the field was forced to null due to unreadability or mandatory
low confidence. -/
def fieldForcedNull (mandatory : Bool) (f : RawField) : Bool :=
  !(f.status = FieldStatus.readable) || (mandatory && decide (f.confidence < 7/10))

/-- Modelled from the spec: the gate applied to every field of one page
result.  A page is a list of (field name, raw field) pairs; a field is
mandatory when its name is in the mandatory set. -/
def gatePage (mandatorySet : List String) (fields : List (String × RawField)) :
    List (String × Option FieldValue) :=
  fields.map (fun nf => (nf.1, gateField (mandatorySet.contains nf.1) nf.2))

/-- C1: No-Guess Gate rule 1 — for every page and every field, if the field's
reported status is not readable, the gated value is null: the gate outputs
null for that field and the gated page carries the (name, null) entry.  The
readability defect overrides any value the model reported. -/
theorem gate_rule1_nonreadable_null
    (mandatorySet : List String) (fields : List (String × RawField))
    (nf : String × RawField) (hmem : nf ∈ fields)
    (hstat : nf.2.status ≠ FieldStatus.readable) :
    gateField (mandatorySet.contains nf.1) nf.2 = none ∧
      (nf.1, (none : Option FieldValue)) ∈ gatePage mandatorySet fields := by
  have hg : gateField (mandatorySet.contains nf.1) nf.2 = none := by
    unfold gateField
    rw [if_neg hstat]
  refine ⟨hg, ?_⟩
  have h2 : (nf.1, gateField (mandatorySet.contains nf.1) nf.2) ∈
      gatePage mandatorySet fields := List.mem_map_of_mem _ hmem
  rw [hg] at h2
  exact h2

/-- Witness for C1 at a concrete blurry field on a one-field page. -/
theorem gate_rule1_nonreadable_null_witness :
    gateField ((["Invoice_No"] : List String).contains "Invoice_No")
        ⟨some (FieldValue.str "INV-1"), 9/10, FieldStatus.blurry, none⟩ = none ∧
      ("Invoice_No", (none : Option FieldValue)) ∈
        gatePage ["Invoice_No"]
          [("Invoice_No", ⟨some (FieldValue.str "INV-1"), 9/10, FieldStatus.blurry, none⟩)] :=
  gate_rule1_nonreadable_null ["Invoice_No"]
    [("Invoice_No", ⟨some (FieldValue.str "INV-1"), 9/10, FieldStatus.blurry, none⟩)]
    ("Invoice_No", ⟨some (FieldValue.str "INV-1"), 9/10, FieldStatus.blurry, none⟩)
    (by simp) (by decide)

/-- C2: No-Guess Gate rule 2 — for every mandatory field on every page, if the
reported confidence is strictly below 0.70, the gated value is null, even when
the reported status is readable (the theorem places no constraint on the
status, so the readable case is included). -/
theorem gate_rule2_lowconf_mandatory_null
    (mandatorySet : List String) (fields : List (String × RawField))
    (nf : String × RawField) (hmem : nf ∈ fields)
    (hmand : mandatorySet.contains nf.1 = true)
    (hconf : nf.2.confidence < 7/10) :
    gateField (mandatorySet.contains nf.1) nf.2 = none ∧
      (nf.1, (none : Option FieldValue)) ∈ gatePage mandatorySet fields := by
  have hg : gateField (mandatorySet.contains nf.1) nf.2 = none := by
    unfold gateField
    by_cases hs : nf.2.status = FieldStatus.readable
    · have hb : (mandatorySet.contains nf.1 && decide (nf.2.confidence < 7/10)) = true := by
        rw [hmand]
        simpa using hconf
      rw [if_pos hs, if_pos hb]
    · rw [if_neg hs]
  refine ⟨hg, ?_⟩
  have h2 : (nf.1, gateField (mandatorySet.contains nf.1) nf.2) ∈
      gatePage mandatorySet fields := List.mem_map_of_mem _ hmem
  rw [hg] at h2
  exact h2

/-- Witness for C2 at a concrete readable mandatory field with confidence
0.5 < 0.70: the gate still nulls it. -/
theorem gate_rule2_lowconf_mandatory_null_witness :
    gateField ((["Net_Amount"] : List String).contains "Net_Amount")
        ⟨some (FieldValue.num 100), 1/2, FieldStatus.readable, none⟩ = none ∧
      ("Net_Amount", (none : Option FieldValue)) ∈
        gatePage ["Net_Amount"]
          [("Net_Amount", ⟨some (FieldValue.num 100), 1/2, FieldStatus.readable, none⟩)] :=
  gate_rule2_lowconf_mandatory_null ["Net_Amount"]
    [("Net_Amount", ⟨some (FieldValue.num 100), 1/2, FieldStatus.readable, none⟩)]
    ("Net_Amount", ⟨some (FieldValue.num 100), 1/2, FieldStatus.readable, none⟩)
    (by simp) (by decide) (by norm_num)

/-- The key fields penalized by the Confidence Scorer when null after gating
(backend README, "System confidence calculation"). -/
def KEY_FIELDS : List String :=
  ["Invoice_No", "Invoice_Date", "Net_Amount", "Exclusive_Value", "Inclusive_Value"]

/-- Look up a gated field by name; a field never reported gates to null. -/
def lookupGated (gated : List (String × Option FieldValue)) (n : String) :
    Option FieldValue :=
  (gated.lookup n).getD none

/-- Numeric view of a gated value. -/
def asNum : Option FieldValue → Option ℚ
  | some (FieldValue.num q) => some q
  | _ => none

/-- Modelled from the spec: number of key fields that ended up null after
gating (the scorer subtracts a fixed penalty for each). -/
def missingKeyCount (gated : List (String × Option FieldValue)) : ℕ :=
  (KEY_FIELDS.filter (fun n => (lookupGated gated n).isNone)).length

/-- Modelled from the spec: totals-reconciliation check — penalize when
Inclusive_Value differs from Exclusive_Value + GST_Sales_Tax beyond a small
numeric tolerance; fields that are null or non-numeric skip the check. -/
def totalsMismatch (tol : ℚ) (gated : List (String × Option FieldValue)) : Bool :=
  match asNum (lookupGated gated "Inclusive_Value"),
      asNum (lookupGated gated "Exclusive_Value"),
      asNum (lookupGated gated "GST_Sales_Tax") with
  | some inc, some exc, some gst => decide (tol < |inc - (exc + gst)|)
  | _, _, _ => false

/-- Modelled from the spec: whether any field on the invoice was forced to
null by the No-Guess Gate (rule 1 or rule 2). -/
def anyForcedNull (mandatorySet : List String) (fields : List (String × RawField)) : Bool :=
  fields.any (fun nf => fieldForcedNull (mandatorySet.contains nf.1) nf.2)

/-- Final clamp of the scorer to the interval [0, 1]. -/
def clamp01 (q : ℚ) : ℚ := max 0 (min 1 q)

/-- Modelled from the spec: the Confidence Scorer of invoice_extractor/lib.py
is not under src/.  Start at 1.0; subtract a fixed penalty per missing key
field; subtract a penalty on totals mismatch; if any field was forced null by
the gate, clamp the score to at most 0.4; clamp the final result to [0, 1].
The penalty magnitudes and tolerance are configurable constants (spec
design note), passed here as parameters. -/
def systemConfidence (keyPenalty totalsPenalty tol : ℚ)
    (mandatorySet : List String) (fields : List (String × RawField)) : ℚ :=
  let gated := gatePage mandatorySet fields
  let base := 1 - keyPenalty * (missingKeyCount gated : ℚ) -
    (if totalsMismatch tol gated then totalsPenalty else 0)
  let score := if anyForcedNull mandatorySet fields then min base (2/5) else base
  clamp01 score

theorem clamp01_nonneg (q : ℚ) : 0 ≤ clamp01 q := le_max_left _ _

theorem clamp01_le_one (q : ℚ) : clamp01 q ≤ 1 :=
  max_le (by norm_num) (min_le_left _ _)

/-- C3: Confidence Scorer clamp — for every invoice, if at least one field was
forced to null by the No-Guess Gate, the final systemConfidence is at most
0.4 regardless of the additive computation (any penalties, any tolerance),
and the final result always lies in [0, 1]. -/
theorem system_confidence_forced_null_clamp
    (keyPenalty totalsPenalty tol : ℚ)
    (mandatorySet : List String) (fields : List (String × RawField)) :
    (anyForcedNull mandatorySet fields = true →
        systemConfidence keyPenalty totalsPenalty tol mandatorySet fields ≤ 2/5) ∧
      0 ≤ systemConfidence keyPenalty totalsPenalty tol mandatorySet fields ∧
      systemConfidence keyPenalty totalsPenalty tol mandatorySet fields ≤ 1 := by
  refine ⟨?_, clamp01_nonneg _, clamp01_le_one _⟩
  intro hforced
  unfold systemConfidence clamp01
  simp only [hforced, eq_self_iff_true, if_true]
  exact max_le (by norm_num) (le_trans (min_le_right _ _) (min_le_right _ _))

/-- Witness for C3: one readable mandatory field with confidence 0.5 is
forced null by rule 2, so the clamp applies on this concrete invoice. -/
theorem system_confidence_forced_null_clamp_witness :
    (anyForcedNull ["Net_Amount"]
        [("Net_Amount", ⟨some (FieldValue.num 100), 1/2, FieldStatus.readable, none⟩)] = true →
        systemConfidence (1/10) (1/10) (1/100) ["Net_Amount"]
          [("Net_Amount", ⟨some (FieldValue.num 100), 1/2, FieldStatus.readable, none⟩)] ≤ 2/5) ∧
      0 ≤ systemConfidence (1/10) (1/10) (1/100) ["Net_Amount"]
          [("Net_Amount", ⟨some (FieldValue.num 100), 1/2, FieldStatus.readable, none⟩)] ∧
      systemConfidence (1/10) (1/10) (1/100) ["Net_Amount"]
          [("Net_Amount", ⟨some (FieldValue.num 100), 1/2, FieldStatus.readable, none⟩)] ≤ 1 :=
  system_confidence_forced_null_clamp (1/10) (1/10) (1/100) ["Net_Amount"]
    [("Net_Amount", ⟨some (FieldValue.num 100), 1/2, FieldStatus.readable, none⟩)]

/-- True-readability defect statuses: unreadable, blurry, faded, cut_off,
ambiguous.  These are the only statuses that count as readability defects;
readable and handwritten do not. -/
def isTrueDefect : FieldStatus → Bool
  | FieldStatus.unreadable => true
  | FieldStatus.blurry => true
  | FieldStatus.faded => true
  | FieldStatus.cut_off => true
  | FieldStatus.ambiguous => true
  | FieldStatus.readable => false
  | FieldStatus.handwritten => false

/-- One field diagnostic kept on an assembled invoice: field name, status,
confidence, optional reason.  A field absent from the source document is
simply never reported, so it has no diagnostic entry at all. -/
structure FieldDiag where
  name : String
  status : FieldStatus
  confidence : ℚ
  reason : Option String
deriving DecidableEq, Repr

/-- Modelled from the spec: the Invoice Assembler of the backend is not under
src/.  unreadableFields is the set of fields whose diagnostic status is a
true-readability defect. -/
def unreadableFields (diags : List FieldDiag) : List String :=
  (diags.filter (fun d => isTrueDefect d.status)).map (fun d => d.name)

/-- Modelled from the spec: the Invoice Assembler sets needsRescan exactly
when unreadableFields is non-empty. -/
def needsRescan (diags : List FieldDiag) : Bool :=
  !(unreadableFields diags).isEmpty

/-- C4: for every invoice produced by the assembler, needsRescan is true if
and only if unreadableFields is non-empty; and an invoice none of whose
diagnostics carries a true-readability defect — in particular one whose only
problems are missing, never-reported fields, which have no diagnostics at
all — has needsRescan false. -/
theorem needs_rescan_iff_unreadable_nonempty (diags : List FieldDiag) :
    (needsRescan diags = true ↔ unreadableFields diags ≠ []) ∧
      ((∀ d ∈ diags, isTrueDefect d.status = false) → needsRescan diags = false) := by
  constructor
  · unfold needsRescan
    simp [List.isEmpty_iff]
  · intro hnone
    unfold needsRescan unreadableFields
    have : diags.filter (fun d => isTrueDefect d.status) = [] := by
      rw [List.filter_eq_nil_iff]
      intro d hd
      rw [hnone d hd]
      exact Bool.false_ne_true
    rw [this]
    rfl

/-- Witness for C4 on a concrete invoice with one readable diagnostic and one
handwritten diagnostic (and any number of missing fields, which carry no
diagnostics): needsRescan is false, and the iff holds. -/
theorem needs_rescan_iff_unreadable_nonempty_witness :
    (needsRescan
        [⟨"Invoice_No", FieldStatus.readable, 9/10, none⟩,
         ⟨"Buyer_Name", FieldStatus.handwritten, 8/10, none⟩] = true ↔
      unreadableFields
        [⟨"Invoice_No", FieldStatus.readable, 9/10, none⟩,
         ⟨"Buyer_Name", FieldStatus.handwritten, 8/10, none⟩] ≠ []) ∧
    needsRescan
        [⟨"Invoice_No", FieldStatus.readable, 9/10, none⟩,
         ⟨"Buyer_Name", FieldStatus.handwritten, 8/10, none⟩] = false :=
  ⟨(needs_rescan_iff_unreadable_nonempty _).1,
    (needs_rescan_iff_unreadable_nonempty
      [⟨"Invoice_No", FieldStatus.readable, 9/10, none⟩,
       ⟨"Buyer_Name", FieldStatus.handwritten, 8/10, none⟩]).2 (by decide)⟩

/-- The string form of a diagnostic status as stored in fieldDiagnostics and
read by the dashboard (invoice-detail-page.tsx). -/
def statusName : FieldStatus → String
  | FieldStatus.readable => "readable"
  | FieldStatus.unreadable => "unreadable"
  | FieldStatus.ambiguous => "ambiguous"
  | FieldStatus.blurry => "blurry"
  | FieldStatus.faded => "faded"
  | FieldStatus.cut_off => "cut_off"
  | FieldStatus.handwritten => "handwritten"

/-- The input-border highlight predicate of invoice-detail-page.tsx
(lines 630 and 707): a field input is given the orange defect styling when
its diagnostic status is in [ambiguous, blurry, faded, cut_off, unreadable].
Handwritten is not in this list. -/
def detailBorderFlagged (status : String) : Bool :=
  (["ambiguous", "blurry", "faded", "cut_off", "unreadable"] : List String).contains status

/-- The advisory warning predicate of invoice-detail-page.tsx (lines 644 and
721): the orange "Flagged: status" message is rendered when the diagnostic
status is in [handwritten, ambiguous, blurry, faded, cut_off, unreadable].
Handwritten is in this list. -/
def detailMessageFlagged (status : String) : Bool :=
  (["handwritten", "ambiguous", "blurry", "faded", "cut_off", "unreadable"] : List String).contains
    status

/-- C5 counterexample: the claim says a diagnostic status of handwritten by
itself never causes the field to be flagged, but the flagged set at the cited
lines (invoice-detail-page.tsx 641-647 and 718-724) contains "handwritten",
so a field whose status is handwritten is flagged with an advisory warning
even with a readable value and full confidence. -/
theorem handwritten_flagged_counterexample :
    detailMessageFlagged (statusName FieldStatus.handwritten) = true := by
  decide

/-- C5 amended: handwritten alone is never treated as a true-readability
defect — it is excluded from the defect statuses (so it never enters
unreadableFields, never triggers needsRescan, and never receives the defect
border styling, which agrees exactly with the true-defect set for every
status) — but the detail page's advisory warning set does include
handwritten, so such a field still shows an informational flag. -/
theorem handwritten_not_defect_amended :
    isTrueDefect FieldStatus.handwritten = false ∧
      detailBorderFlagged (statusName FieldStatus.handwritten) = false ∧
      detailMessageFlagged (statusName FieldStatus.handwritten) = true ∧
      (∀ s : FieldStatus, detailBorderFlagged (statusName s) = isTrueDefect s) ∧
      (∀ diags : List FieldDiag,
        (∀ d ∈ diags, d.status = FieldStatus.handwritten ∨ d.status = FieldStatus.readable) →
          needsRescan diags = false) := by
  refine ⟨by decide, by decide, by decide, by intro s; cases s <;> rfl, ?_⟩
  intro diags hall
  exact (needs_rescan_iff_unreadable_nonempty diags).2 (fun d hd => by
    rcases hall d hd with h | h <;> rw [h] <;> rfl)

/-- Witness for C5 amended at a concrete all-handwritten diagnostic list. -/
theorem handwritten_not_defect_amended_witness :
    needsRescan [⟨"Buyer_Name", FieldStatus.handwritten, 8/10, none⟩] = false :=
  handwritten_not_defect_amended.2.2.2.2
    [⟨"Buyer_Name", FieldStatus.handwritten, 8/10, none⟩]
    (by intro d hd; simp at hd; rw [hd]; exact Or.inl rfl)

/-- Job status: queued, running, completed, failed. -/
inductive JobStatus where
  | queued
  | running
  | completed
  | failed
deriving DecidableEq, Repr

/-- The mutable Job record tracked per uploaded document: status, page count
(unknown until rasterization), and the monotone processed-page counter. -/
structure JobState where
  status : JobStatus
  totalPages : Option ℕ
  processedPages : ℕ
deriving DecidableEq, Repr

/-- Events applied to a Job by the Job Manager: start of processing, page
count discovery, one page reaching a terminal outcome, terminal completion,
terminal failure. -/
inductive JobEvent where
  | start
  | setTotal (n : ℕ)
  | pageDone
  | complete
  | fail
deriving DecidableEq, Repr

/-- Whether the counter may still advance under the page bound. -/
def withinTotal (s : JobState) : Bool :=
  match s.totalPages with
  | some t => decide (s.processedPages < t)
  | none => true

/-- Modelled from the spec: the backend Job Manager is not under src/ (the
frontend pollJob only reads its status surface).  Transition function of the
job state machine: queued moves to running on start; the page count is set
once while running; each page completion increments processedPages while
running and within the page bound; running moves to the terminal statuses
completed or failed; no event applies in a terminal status (the record is
immutable once terminal). -/
def jobStep (s : JobState) : JobEvent → Option JobState
  | JobEvent.start =>
      if s.status = JobStatus.queued then some { s with status := JobStatus.running } else none
  | JobEvent.setTotal n =>
      if s.status = JobStatus.running ∧ s.totalPages = none ∧ s.processedPages ≤ n then
        some { s with totalPages := some n }
      else none
  | JobEvent.pageDone =>
      if s.status = JobStatus.running ∧ withinTotal s = true then
        some { s with processedPages := s.processedPages + 1 }
      else none
  | JobEvent.complete =>
      if s.status = JobStatus.running then some { s with status := JobStatus.completed } else none
  | JobEvent.fail =>
      if s.status = JobStatus.running then some { s with status := JobStatus.failed } else none

/-- The terminal statuses. -/
def isTerminal : JobStatus → Bool
  | JobStatus.completed => true
  | JobStatus.failed => true
  | _ => false

/-- The allowed status edges: stay put, queued to running, or running to a
terminal status. -/
def statusEdge (a b : JobStatus) : Prop :=
  a = b ∨ (a = JobStatus.queued ∧ b = JobStatus.running) ∨
    (a = JobStatus.running ∧ (b = JobStatus.completed ∨ b = JobStatus.failed))

/-- The Job invariant: processedPages never exceeds totalPages once set. -/
def jobInv (s : JobState) : Prop :=
  ∀ t : ℕ, s.totalPages = some t → s.processedPages ≤ t

/-- C6: job state-machine invariant — every enabled transition follows the
queued to running to terminal order, is never taken from a terminal status
(terminal statuses never revert), never decreases processedPages, and
preserves processedPages at most totalPages once totalPages is set. -/
theorem job_step_invariants (s : JobState) (e : JobEvent) (s' : JobState)
    (h : jobStep s e = some s') :
    statusEdge s.status s'.status ∧ isTerminal s.status = false ∧
      s.processedPages ≤ s'.processedPages ∧ (jobInv s → jobInv s') := by
  cases e with
  | start =>
      simp only [jobStep] at h
      split_ifs at h with hq
      cases h
      refine ⟨Or.inr (Or.inl ⟨hq, rfl⟩), by rw [hq]; rfl, le_refl _, ?_⟩
      intro hi t ht
      exact hi t ht
  | setTotal n =>
      simp only [jobStep] at h
      split_ifs at h with hg
      cases h
      refine ⟨Or.inl rfl, by rw [hg.1]; rfl, le_refl _, ?_⟩
      intro _ t ht
      have : some n = some t := ht
      cases this
      exact hg.2.2
  | pageDone =>
      simp only [jobStep] at h
      split_ifs at h with hg
      cases h
      refine ⟨Or.inl rfl, by rw [hg.1]; rfl, Nat.le_succ _, ?_⟩
      intro _ t ht
      have hw := hg.2
      unfold withinTotal at hw
      rw [ht] at hw
      have : s.processedPages < t := of_decide_eq_true hw
      show s.processedPages + 1 ≤ t
      omega
  | complete =>
      simp only [jobStep] at h
      split_ifs at h with hq
      cases h
      refine ⟨Or.inr (Or.inr ⟨hq, Or.inl rfl⟩), by rw [hq]; rfl, le_refl _, ?_⟩
      intro hi t ht
      exact hi t ht
  | fail =>
      simp only [jobStep] at h
      split_ifs at h with hq
      cases h
      refine ⟨Or.inr (Or.inr ⟨hq, Or.inr rfl⟩), by rw [hq]; rfl, le_refl _, ?_⟩
      intro hi t ht
      exact hi t ht

/-- Witness for C6 at the concrete first transition of a fresh job: queued
with no page count moves to running on start. -/
theorem job_step_invariants_witness :
    statusEdge (JobState.mk JobStatus.queued none 0).status
        (JobState.mk JobStatus.running none 0).status ∧
      isTerminal (JobState.mk JobStatus.queued none 0).status = false ∧
      (JobState.mk JobStatus.queued none 0).processedPages ≤
        (JobState.mk JobStatus.running none 0).processedPages ∧
      (jobInv (JobState.mk JobStatus.queued none 0) →
        jobInv (JobState.mk JobStatus.running none 0)) :=
  job_step_invariants (JobState.mk JobStatus.queued none 0) JobEvent.start
    (JobState.mk JobStatus.running none 0) (by decide)

/-- The outcome of one rasterize-and-extract attempt on a page at a given
DPI: either the VLM returned results (a number of extracted invoices and a
flag recording whether any field carried a true-readability defect), or the
call errored or timed out. -/
inductive AttemptOutcome where
  | ok (invoices : ℕ) (defect : Bool)
  | errored
deriving DecidableEq, Repr

/-- Modelled from the spec: escalation policy of the Page Dispatcher (not
under src/) — a page is retried exactly once, at the retry DPI, when the
attempt errored or any field carried a true-readability defect. -/
def needsRetry : AttemptOutcome → Bool
  | AttemptOutcome.errored => true
  | AttemptOutcome.ok _ d => d

/-- A page together with the outcomes its two possible attempts would have:
base DPI first, retry DPI if escalated. -/
structure PageSpec where
  base : AttemptOutcome
  retry : AttemptOutcome
deriving DecidableEq, Repr

/-- Modelled from the spec: the final outcome of one page — the base attempt
unless it triggers escalation, in which case the single retry's result is
final, success or failure. -/
def pageFinal (p : PageSpec) : AttemptOutcome :=
  if needsRetry p.base then p.retry else p.base

/-- A page ultimately failed when its final attempt errored. -/
def pageFailed (p : PageSpec) : Bool :=
  match pageFinal p with
  | AttemptOutcome.errored => true
  | AttemptOutcome.ok _ _ => false

/-- Invoices contributed by a page: none when the page ultimately failed. -/
def pageInvoices (p : PageSpec) : ℕ :=
  match pageFinal p with
  | AttemptOutcome.ok n _ => n
  | AttemptOutcome.errored => 0

/-- A document to be processed: whether rasterization fails fatally at the
document level, and the per-page attempt outcomes. -/
structure DocSpec where
  renderError : Bool
  pages : List PageSpec
deriving DecidableEq, Repr

/-- The Job-level result surfaced for one document. -/
structure JobResult where
  status : JobStatus
  processedPages : ℕ
  invoiceCount : ℕ
deriving DecidableEq, Repr

/-- Modelled from the spec: the Job Manager outcome for a document (backend
not under src/).  A document-level RenderError fails the job; otherwise every
page reaches a terminal outcome (so processedPages equals the page count),
per-page failures are isolated, and the job fails only when every page
ultimately failed. -/
def runDocument (d : DocSpec) : JobResult :=
  if d.renderError then
    { status := JobStatus.failed, processedPages := 0, invoiceCount := 0 }
  else
    { status :=
        if !d.pages.isEmpty && d.pages.all pageFailed then JobStatus.failed
        else JobStatus.completed,
      processedPages := d.pages.length,
      invoiceCount := (d.pages.map pageInvoices).sum }

/-- The 5-page scenario of the claim: pages 1, 2, 4, 5 succeed at the base
DPI with one invoice each; page 3 errors at the base DPI and again at the
retry DPI. -/
def scenarioDoc : DocSpec :=
  { renderError := false,
    pages :=
      [⟨AttemptOutcome.ok 1 false, AttemptOutcome.ok 1 false⟩,
       ⟨AttemptOutcome.ok 1 false, AttemptOutcome.ok 1 false⟩,
       ⟨AttemptOutcome.errored, AttemptOutcome.errored⟩,
       ⟨AttemptOutcome.ok 1 false, AttemptOutcome.ok 1 false⟩,
       ⟨AttemptOutcome.ok 1 false, AttemptOutcome.ok 1 false⟩] }

/-- C7: partial-failure tolerance — in the 5-page scenario where page 3 fails
at both the base-DPI and retry-DPI attempts and the other four pages succeed,
the job still completes with processedPages 5 and 4 invoices (page 3 marked
failed); and in general the job status is failed only on a document-level
RenderError or when every page ultimately failed. -/
theorem partial_failure_tolerance :
    (runDocument scenarioDoc).status = JobStatus.completed ∧
      (runDocument scenarioDoc).processedPages = 5 ∧
      (runDocument scenarioDoc).invoiceCount = 4 ∧
      pageFailed ⟨AttemptOutcome.errored, AttemptOutcome.errored⟩ = true ∧
      (∀ d : DocSpec, (runDocument d).status = JobStatus.failed →
        d.renderError = true ∨ d.pages.all pageFailed = true) := by
  refine ⟨by decide, by decide, by decide, by decide, ?_⟩
  intro d h
  by_cases hr : d.renderError = true
  · exact Or.inl hr
  · right
    unfold runDocument at h
    rw [if_neg (by simpa using hr)] at h
    by_cases hall : (!d.pages.isEmpty && d.pages.all pageFailed) = true
    · have h2 := hall
      rw [Bool.and_eq_true] at h2
      exact h2.2
    · rw [if_neg (by simpa using hall)] at h
      cases h

/-- Witness for C7's general clause at a concrete failing document. -/
theorem partial_failure_tolerance_witness :
    (DocSpec.mk true [] : DocSpec).renderError = true ∨
      (DocSpec.mk true [] : DocSpec).pages.all pageFailed = true :=
  partial_failure_tolerance.2.2.2.2 (DocSpec.mk true []) (by decide)

/-- Statuses of an entry in the upload queue (contexts/upload-manager.tsx,
interface UploadedFile). -/
inductive FileStatus where
  | uploading
  | processing
  | completed
  | failed
  | lowReadability
deriving DecidableEq, Repr

/-- One entry of the upload queue, after contexts/upload-manager.tsx
(interface UploadedFile).  progress is a percentage; optional properties are
Options. -/
structure UploadedFile where
  id : String
  name : String
  size : Option ℕ
  status : FileStatus
  needsReview : Option Bool
  progress : ℕ
  confidence : Option ℚ
  invoiceIds : Option (List String)
  jobId : Option String
  documentId : Option String
  error : Option String
  message : Option String
deriving DecidableEq, Repr

/-- Whether a job-backed entry is still in flight. -/
def inFlight : FileStatus → Bool
  | FileStatus.uploading => true
  | FileStatus.processing => true
  | _ => false

/-- The merge step of upsertFile (upload-manager.tsx): the update object
spread over the existing entry — every caller passes a fully-populated
record, so the incoming record wins field by field — except that while the
merged status is uploading or processing (and both progress values are
numbers, which the types guarantee), progress never goes backwards: the
stored progress is the maximum of the existing and incoming values. -/
def upsertMerge (existing next : UploadedFile) : UploadedFile :=
  if inFlight next.status then
    { next with progress := max existing.progress next.progress }
  else next

/-- Replace the first entry whose id matches the incoming record with the
merged record, leaving all other entries alone (findIndex plus copy-and-set
in the source). -/
def replaceFirstById (next : UploadedFile) : List UploadedFile → List UploadedFile
  | [] => []
  | f :: rest =>
      if f.id = next.id then upsertMerge f next :: rest
      else f :: replaceFirstById next rest

/-- upsertFile of upload-manager.tsx: ignore updates for dismissed ids;
merge into the existing entry with the same id when there is one; otherwise
prepend the new entry. -/
def upsertFile (dismissed : List String) (next : UploadedFile)
    (prev : List UploadedFile) : List UploadedFile :=
  if next.id ∈ dismissed then prev
  else if prev.any (fun f => f.id = next.id) then replaceFirstById next prev
  else next :: prev

theorem replaceFirstById_append (next e : UploadedFile)
    (pre rest : List UploadedFile) (hpre : ∀ f ∈ pre, f.id ≠ next.id)
    (he : e.id = next.id) :
    replaceFirstById next (pre ++ e :: rest) = pre ++ upsertMerge e next :: rest := by
  induction pre with
  | nil => simp [replaceFirstById, he]
  | cons f pre ih =>
      have hf : f.id ≠ next.id := hpre f (List.mem_cons_self f pre)
      have ih2 := ih (fun g hg => hpre g (List.mem_cons_of_mem f hg))
      simp [replaceFirstById, hf, ih2]

/-- C8: in upsertFile, whenever an update for a non-dismissed id is merged
into an existing entry and the merged status (the incoming status, since the
incoming record is spread last) is uploading or processing, only that entry
changes and its stored progress is the maximum of the existing and incoming
progress values — so a file's displayed progress never decreases while its
job is in flight. -/
theorem upsert_inflight_progress_max (dismissed : List String)
    (next e : UploadedFile) (pre rest : List UploadedFile)
    (hd : next.id ∉ dismissed) (hpre : ∀ f ∈ pre, f.id ≠ next.id)
    (he : e.id = next.id)
    (hst : next.status = FileStatus.uploading ∨ next.status = FileStatus.processing) :
    upsertFile dismissed next (pre ++ e :: rest) = pre ++ upsertMerge e next :: rest ∧
      (upsertMerge e next).status = next.status ∧
      (upsertMerge e next).progress = max e.progress next.progress ∧
      e.progress ≤ (upsertMerge e next).progress := by
  have hin : inFlight next.status = true := by
    rcases hst with h | h <;> rw [h] <;> rfl
  have hmerge : upsertMerge e next =
      { next with progress := max e.progress next.progress } := by
    unfold upsertMerge
    rw [if_pos hin]
  have hany : (pre ++ e :: rest).any (fun f => f.id = next.id) = true := by
    rw [List.any_eq_true]
    exact ⟨e, by simp, by simpa using he⟩
  refine ⟨?_, ?_, ?_, ?_⟩
  · unfold upsertFile
    rw [if_neg hd, if_pos hany]
    exact replaceFirstById_append next e pre rest hpre he
  · rw [hmerge]
  · rw [hmerge]
  · rw [hmerge]
    exact le_max_left _ _

/-- Witness for C8: a concrete polling update at 40 percent merged into an
existing processing entry at 60 percent keeps the progress at 60. -/
theorem upsert_inflight_progress_max_witness :
    upsertFile []
        ⟨"j1", "a.pdf", none, FileStatus.processing, none, 40, none, none,
          some "j1", none, none, none⟩
        ([] ++ ⟨"j1", "a.pdf", none, FileStatus.processing, none, 60, none, none,
          some "j1", none, none, none⟩ :: []) =
      [] ++ upsertMerge
          ⟨"j1", "a.pdf", none, FileStatus.processing, none, 60, none, none,
            some "j1", none, none, none⟩
          ⟨"j1", "a.pdf", none, FileStatus.processing, none, 40, none, none,
            some "j1", none, none, none⟩ :: [] ∧
      (upsertMerge
          ⟨"j1", "a.pdf", none, FileStatus.processing, none, 60, none, none,
            some "j1", none, none, none⟩
          ⟨"j1", "a.pdf", none, FileStatus.processing, none, 40, none, none,
            some "j1", none, none, none⟩).status = FileStatus.processing ∧
      (upsertMerge
          ⟨"j1", "a.pdf", none, FileStatus.processing, none, 60, none, none,
            some "j1", none, none, none⟩
          ⟨"j1", "a.pdf", none, FileStatus.processing, none, 40, none, none,
            some "j1", none, none, none⟩).progress = max 60 40 ∧
      (60 : ℕ) ≤ (upsertMerge
          ⟨"j1", "a.pdf", none, FileStatus.processing, none, 60, none, none,
            some "j1", none, none, none⟩
          ⟨"j1", "a.pdf", none, FileStatus.processing, none, 40, none, none,
            some "j1", none, none, none⟩).progress :=
  upsert_inflight_progress_max []
    ⟨"j1", "a.pdf", none, FileStatus.processing, none, 40, none, none,
      some "j1", none, none, none⟩
    ⟨"j1", "a.pdf", none, FileStatus.processing, none, 60, none, none,
      some "j1", none, none, none⟩
    [] [] (by simp) (by simp) rfl (Or.inr rfl)

/-- JavaScript Math.round: the nearest integer, with halves rounding up. -/
def jsRound (q : ℚ) : ℤ := Int.floor (q + 1/2)

/-- The 12MB client-side size limit of upload-manager.tsx. -/
def MAX_FILE_BYTES : ℕ := 12 * 1024 * 1024

/-- A browser File as seen by startUpload: a name and a byte size. -/
structure BrowserFile where
  name : String
  size : ℕ
deriving DecidableEq, Repr

/-- The megabyte figure shown in the too-large error, rounded to two decimal
places the way the source does with Math.round. -/
def sizeMBRounded (size : ℕ) : ℚ :=
  (jsRound ((size : ℚ) / 1024 / 1024 * 100) : ℚ) / 100

/-- The error message startUpload stores for an oversized file. -/
def tooLargeMsg (size : ℕ) : String :=
  "File too large (" ++ toString (sizeMBRounded size) ++ "MB). Max 12MB."

/-- The locally recorded failed entry for an oversized file. -/
def tooLargeEntry (tempId : String) (f : BrowserFile) : UploadedFile :=
  { id := tempId, name := f.name, size := some f.size, status := FileStatus.failed,
    needsReview := none, progress := 100, confidence := none, invoiceIds := none,
    jobId := none, documentId := none, error := some (tooLargeMsg f.size),
    message := none }

/-- The temp uploading entry created before the POST for an accepted file. -/
def freshEntry (tempId : String) (f : BrowserFile) : UploadedFile :=
  { id := tempId, name := f.name, size := some f.size, status := FileStatus.uploading,
    needsReview := none, progress := 5, confidence := none, invoiceIds := none,
    jobId := none, documentId := none, error := none, message := none }

/-- What startUpload does with one file: either record a local failure
without contacting the backend, or record a temp entry and submit the file
via uploadDocument. -/
inductive StartAction where
  | rejected (entry : UploadedFile)
  | submitted (entry : UploadedFile)
deriving DecidableEq, Repr

/-- The per-file branch of startUpload (upload-manager.tsx): a file whose
size exceeds MAX_FILE_BYTES gets a local failed entry and an early return;
otherwise a temp uploading entry is created and the file is submitted. -/
def startUploadFile (tempId : String) (f : BrowserFile) : StartAction :=
  if f.size > MAX_FILE_BYTES then
    StartAction.rejected (tooLargeEntry (tempId ++ "_too_large") f)
  else StartAction.submitted (freshEntry tempId f)

/-- Whether the branch taken calls uploadDocument. -/
def uploadDocumentCalled : StartAction → Bool
  | StartAction.submitted _ => true
  | StartAction.rejected _ => false

/-- C9: in startUpload, every file whose byte size exceeds 12 * 1024 * 1024
is recorded locally as a failed entry with progress 100 and an error message
ending in the 12MB limit, and uploadDocument is never called for it;
uploadDocument is called exactly for the files at or under the limit. -/
theorem start_upload_size_limit (tempId : String) (f : BrowserFile) :
    (f.size > MAX_FILE_BYTES →
      startUploadFile tempId f =
          StartAction.rejected (tooLargeEntry (tempId ++ "_too_large") f) ∧
        (tooLargeEntry (tempId ++ "_too_large") f).status = FileStatus.failed ∧
        (tooLargeEntry (tempId ++ "_too_large") f).progress = 100 ∧
        (∃ p : String, (tooLargeEntry (tempId ++ "_too_large") f).error =
          some (p ++ "MB). Max 12MB."))) ∧
      (uploadDocumentCalled (startUploadFile tempId f) = true ↔ f.size ≤ MAX_FILE_BYTES) := by
  constructor
  · intro hbig
    refine ⟨?_, rfl, rfl, ?_⟩
    · unfold startUploadFile
      rw [if_pos hbig]
    · exact ⟨"File too large (" ++ toString (sizeMBRounded f.size), rfl⟩
  · unfold startUploadFile
    by_cases hbig : f.size > MAX_FILE_BYTES
    · rw [if_pos hbig]
      simp [uploadDocumentCalled]
      omega
    · rw [if_neg hbig]
      simp [uploadDocumentCalled]
      omega

/-- Witness for C9 at a concrete 13MB file, above the limit. -/
theorem start_upload_size_limit_witness :
    (startUploadFile "t0" ⟨"big.pdf", 13 * 1024 * 1024⟩ =
        StartAction.rejected (tooLargeEntry ("t0" ++ "_too_large") ⟨"big.pdf", 13 * 1024 * 1024⟩) ∧
      (tooLargeEntry ("t0" ++ "_too_large") ⟨"big.pdf", 13 * 1024 * 1024⟩).status =
        FileStatus.failed ∧
      (tooLargeEntry ("t0" ++ "_too_large") ⟨"big.pdf", 13 * 1024 * 1024⟩).progress = 100 ∧
      (∃ p : String, (tooLargeEntry ("t0" ++ "_too_large") ⟨"big.pdf", 13 * 1024 * 1024⟩).error =
        some (p ++ "MB). Max 12MB."))) ∧
      (uploadDocumentCalled (startUploadFile "t0" ⟨"big.pdf", 13 * 1024 * 1024⟩) = true ↔
        13 * 1024 * 1024 ≤ MAX_FILE_BYTES) :=
  ⟨(start_upload_size_limit "t0" ⟨"big.pdf", 13 * 1024 * 1024⟩).1 (by decide),
    (start_upload_size_limit "t0" ⟨"big.pdf", 13 * 1024 * 1024⟩).2⟩

/-- The backend invoice list item fields the invoices page reads to compute
the displayed AI confidence (services/api.ts, ApiInvoiceListItem). -/
structure ApiInvoiceListItem where
  system_confidence : Option ℚ
  model_avg_confidence : Option ℚ
deriving DecidableEq, Repr

/-- aiConfidence as computed by invoices-page.tsx (lines 56-58):
Math.round(((inv.system_confidence ?? inv.model_avg_confidence ?? 0)) * 100). -/
def aiConfidence (inv : ApiInvoiceListItem) : ℤ :=
  jsRound ((inv.system_confidence.getD (inv.model_avg_confidence.getD 0)) * 100)

/-- aiConfidence as the claim words it: round(100 * c) where c is
system_confidence when present, else model_avg_confidence when present,
else 0. -/
def aiConfidenceSpec (inv : ApiInvoiceListItem) : ℤ :=
  jsRound (100 *
    (match inv.system_confidence with
     | some c => c
     | none =>
        match inv.model_avg_confidence with
        | some m => m
        | none => 0))

/-- C10: for every invoice list item, the displayed aiConfidence equals
round(100 * c) where c is system_confidence when present, otherwise
model_avg_confidence when present, otherwise 0 — system confidence takes
precedence over the model average. -/
theorem ai_confidence_precedence (inv : ApiInvoiceListItem) :
    aiConfidence inv = aiConfidenceSpec inv := by
  unfold aiConfidence aiConfidenceSpec
  cases hs : inv.system_confidence with
  | some c => simp [hs, mul_comm]
  | none =>
      cases hm : inv.model_avg_confidence with
      | some m => simp [hs, hm, mul_comm]
      | none => simp [hs, hm]
